import Mathlib

/-!
Verification of the jose repository core against its specification.

Shallow embedding of three source files:
* the AES-GCM key-wrap module (functions `wrap` and `unwrap`),
* the JOSE error class hierarchy (`JOSEError` and its subclasses),
* the sign/verify key resolver `getCryptoKey`.

External collaborators of the code (the AEAD content-encryption
primitives, IV generation, the base64url codec, `checkSigCryptoKey`,
`crypto.subtle.importKey`) are out of scope per the specification and are
modelled as parameters: the embedded functions are proved correct for
every choice of those parameters, under explicitly stated assumptions
where a claim requires them.

Machine integers: the byte values of a `Uint8Array` are modelled as
`Fin 256`; byte sequences as lists of bytes.
-/

set_option maxRecDepth 10000

namespace Jose

/-- Model of the JavaScript builtin `String.prototype.startsWith`:
the character sequence of the search string is a prefix of the
character sequence of the receiver. -/
def jsStartsWith (s pre : String) : Bool :=
  pre.data.isPrefixOf s.data

/-- Model of the JavaScript builtin `s.substr(0, n)`: the first `n`
characters of `s` (all of `s` when it is shorter). -/
def jsSubstrFirst (s : String) (n : Nat) : String :=
  ⟨s.data.take n⟩

/-- Model of the JavaScript builtin `s.substr(-n)`: the last `n`
characters of `s` (all of `s` when it is shorter; JavaScript clamps the
negative start index at 0, which natural subtraction reproduces). -/
def jsSubstrLast (s : String) (n : Nat) : String :=
  ⟨s.data.drop (s.data.length - n)⟩

/-- A byte, the element type of a `Uint8Array`. -/
abbrev Byte := Fin 256

/-- A byte sequence (`Uint8Array`). -/
abbrev Bytes := List Byte

/-- The result of the content-encryption `encrypt` primitive, as
destructured by `wrap`: a ciphertext and an authentication tag. -/
structure EncryptResult where
  ciphertext : Bytes
  tag : Bytes
deriving DecidableEq

/-- The external collaborators the AES-GCM key-wrap module delegates to,
gathered in one record and kept abstract: `encrypt` and `decrypt` are
the content-encryption primitives (arguments in source order:
algorithm, plaintext, key, iv, aad for `encrypt`; algorithm, key,
ciphertext, iv, tag, aad for `decrypt`), `generateIv` draws a fresh IV
for an algorithm identifier, and `base64url` is the base64url encoder.
The key parameter of the source has TypeScript type `unknown`, modelled
by the type parameter `K`. -/
structure AeadPrimitives (K : Type) where
  encrypt : String → Bytes → K → Bytes → Bytes → EncryptResult
  decrypt : String → K → Bytes → Bytes → Bytes → Bytes → Option Bytes
  generateIv : String → Bytes
  base64url : Bytes → String

/-- The value returned by `wrap`: the encrypted key bytes plus the IV
and tag as base64url-encoded header parameter values. -/
structure WrapResult where
  encryptedKey : Bytes
  iv : String
  tag : String
deriving DecidableEq

/-- Embedding of `wrap` from the AES-GCM key-wrap module. The source
statement `iv ||= generateIv(jweAlgorithm)` assigns only when `iv` is
`undefined` (every `Uint8Array`, even an empty one, is truthy in
JavaScript), which the `Option` match reproduces. The AAD passed to
`encrypt` is `new Uint8Array(0)`, the empty byte sequence. -/
def wrap {K : Type} (P : AeadPrimitives K) (alg : String) (key : K)
    (cek : Bytes) (ivOpt : Option Bytes) : WrapResult :=
  let jweAlgorithm := jsSubstrFirst alg 7
  let iv := match ivOpt with
    | some iv => iv
    | none => P.generateIv jweAlgorithm
  let r := P.encrypt jweAlgorithm cek key iv []
  { encryptedKey := r.ciphertext, iv := P.base64url iv, tag := P.base64url r.tag }

/-- Embedding of `unwrap` from the AES-GCM key-wrap module: it
truncates the algorithm identifier and delegates to `decrypt` with
empty AAD. -/
def unwrap {K : Type} (P : AeadPrimitives K) (alg : String) (key : K)
    (encryptedKey iv tag : Bytes) : Option Bytes :=
  P.decrypt (jsSubstrFirst alg 7) key encryptedKey iv tag []

/-!
Embedding of the error class hierarchy. A constructed error instance is
a record of its own-property state after the constructor chain has run:
the `Error` constructor stores the message (the empty string when the
argument is `undefined`), the `JOSEError` field initializer sets `code`
to the generic code and the constructor body sets `name` to the dynamic
class name, then subclass field initializers overwrite `code` (and
`message`, for the classes that declare a `message` field) and subclass
constructor bodies set `claim` and `reason` where present. Stack-trace
capture has no observable own-property effect that the claims mention
and is not modelled.
-/

/-- State of a constructed JOSE error object. `claim` and `reason`
are `none` for the classes that do not declare those fields. -/
structure JoseErr where
  name : String
  message : String
  code : String
  claim : Option String := none
  reason : Option String := none
deriving DecidableEq

/-- The `JOSEError` constructor, parameterized by the dynamic class
name (`this.constructor.name`). -/
def JOSEError.construct (ctorName : String) (messageOpt : Option String) : JoseErr :=
  { name := ctorName, message := messageOpt.getD "", code := "ERR_JOSE_GENERIC" }

/-- Static `code` getter of `JOSEError`. -/
def JOSEError.code : String := "ERR_JOSE_GENERIC"

/-- Constructor of `JWTClaimValidationFailed`; the source defaults
`claim` and `reason` to the string `unspecified`. -/
def JWTClaimValidationFailed.construct (message claim reason : String) : JoseErr :=
  let e := JOSEError.construct "JWTClaimValidationFailed" (some message)
  { e with code := "ERR_JWT_CLAIM_VALIDATION_FAILED", claim := some claim, reason := some reason }

/-- Static `code` getter of `JWTClaimValidationFailed`. -/
def JWTClaimValidationFailed.code : String := "ERR_JWT_CLAIM_VALIDATION_FAILED"

/-- Constructor of `JWTExpired`; the source defaults `claim` and
`reason` to the string `unspecified`. -/
def JWTExpired.construct (message claim reason : String) : JoseErr :=
  let e := JOSEError.construct "JWTExpired" (some message)
  { e with code := "ERR_JWT_EXPIRED", claim := some claim, reason := some reason }

/-- Static `code` getter of `JWTExpired`. -/
def JWTExpired.code : String := "ERR_JWT_EXPIRED"

/-- Constructor of `JOSEAlgNotAllowed`. -/
def JOSEAlgNotAllowed.construct (messageOpt : Option String) : JoseErr :=
  let e := JOSEError.construct "JOSEAlgNotAllowed" messageOpt
  { e with code := "ERR_JOSE_ALG_NOT_ALLOWED" }

/-- Static `code` getter of `JOSEAlgNotAllowed`. -/
def JOSEAlgNotAllowed.code : String := "ERR_JOSE_ALG_NOT_ALLOWED"

/-- Constructor of `JOSENotSupported`. -/
def JOSENotSupported.construct (messageOpt : Option String) : JoseErr :=
  let e := JOSEError.construct "JOSENotSupported" messageOpt
  { e with code := "ERR_JOSE_NOT_SUPPORTED" }

/-- Static `code` getter of `JOSENotSupported`. -/
def JOSENotSupported.code : String := "ERR_JOSE_NOT_SUPPORTED"

/-- Constructor of `JWEDecryptionFailed`: its `message` field
initializer overwrites whatever message was passed to the constructor. -/
def JWEDecryptionFailed.construct (messageOpt : Option String) : JoseErr :=
  let e := JOSEError.construct "JWEDecryptionFailed" messageOpt
  { e with code := "ERR_JWE_DECRYPTION_FAILED", message := "decryption operation failed" }

/-- Static `code` getter of `JWEDecryptionFailed`. -/
def JWEDecryptionFailed.code : String := "ERR_JWE_DECRYPTION_FAILED"

/-- Constructor of `JWEDecompressionFailed`: its `message` field
initializer overwrites whatever message was passed to the constructor. -/
def JWEDecompressionFailed.construct (messageOpt : Option String) : JoseErr :=
  let e := JOSEError.construct "JWEDecompressionFailed" messageOpt
  { e with code := "ERR_JWE_DECOMPRESSION_FAILED", message := "decompression operation failed" }

/-- Static `code` getter of `JWEDecompressionFailed`. -/
def JWEDecompressionFailed.code : String := "ERR_JWE_DECOMPRESSION_FAILED"

/-- Constructor of `JWEInvalid`. -/
def JWEInvalid.construct (messageOpt : Option String) : JoseErr :=
  let e := JOSEError.construct "JWEInvalid" messageOpt
  { e with code := "ERR_JWE_INVALID" }

/-- Static `code` getter of `JWEInvalid`. -/
def JWEInvalid.code : String := "ERR_JWE_INVALID"

/-- Constructor of `JWSInvalid`. -/
def JWSInvalid.construct (messageOpt : Option String) : JoseErr :=
  let e := JOSEError.construct "JWSInvalid" messageOpt
  { e with code := "ERR_JWS_INVALID" }

/-- Static `code` getter of `JWSInvalid`. -/
def JWSInvalid.code : String := "ERR_JWS_INVALID"

/-- Constructor of `JWTInvalid`. -/
def JWTInvalid.construct (messageOpt : Option String) : JoseErr :=
  let e := JOSEError.construct "JWTInvalid" messageOpt
  { e with code := "ERR_JWT_INVALID" }

/-- Static `code` getter of `JWTInvalid`. -/
def JWTInvalid.code : String := "ERR_JWT_INVALID"

/-- Constructor of `JWKInvalid`. -/
def JWKInvalid.construct (messageOpt : Option String) : JoseErr :=
  let e := JOSEError.construct "JWKInvalid" messageOpt
  { e with code := "ERR_JWK_INVALID" }

/-- Static `code` getter of `JWKInvalid`. -/
def JWKInvalid.code : String := "ERR_JWK_INVALID"

/-- Constructor of `JWKSInvalid`. -/
def JWKSInvalid.construct (messageOpt : Option String) : JoseErr :=
  let e := JOSEError.construct "JWKSInvalid" messageOpt
  { e with code := "ERR_JWKS_INVALID" }

/-- Static `code` getter of `JWKSInvalid`. -/
def JWKSInvalid.code : String := "ERR_JWKS_INVALID"

/-- Constructor of `JWKSNoMatchingKey`: its `message` field initializer
overwrites whatever message was passed to the constructor. -/
def JWKSNoMatchingKey.construct (messageOpt : Option String) : JoseErr :=
  let e := JOSEError.construct "JWKSNoMatchingKey" messageOpt
  { e with code := "ERR_JWKS_NO_MATCHING_KEY",
           message := "no applicable key found in the JSON Web Key Set" }

/-- Static `code` getter of `JWKSNoMatchingKey`. -/
def JWKSNoMatchingKey.code : String := "ERR_JWKS_NO_MATCHING_KEY"

/-- A constructed `JWKSMultipleMatchingKeys` error: the error state
plus the `Symbol.asyncIterator` member the class declares, which yields
the sequence of matching keys. -/
structure JWKSMultipleMatchingKeysErr (K : Type) where
  err : JoseErr
  asyncIterator : Unit → List K

/-- Constructor of `JWKSMultipleMatchingKeys`: its `message` field
initializer overwrites whatever message was passed to the constructor.
Modelled from the spec: the class only declares the definitely-assigned
`Symbol.asyncIterator` member; the JWKS resolver (outside this source
set) assigns it an iterator over the candidate keys, so the candidate
key list is taken here as a constructor argument and exposed through
`asyncIterator`. -/
def JWKSMultipleMatchingKeys.construct (K : Type) (messageOpt : Option String)
    (keys : List K) : JWKSMultipleMatchingKeysErr K :=
  let e := JOSEError.construct "JWKSMultipleMatchingKeys" messageOpt
  { err := { e with code := "ERR_JWKS_MULTIPLE_MATCHING_KEYS",
                    message := "multiple matching keys found in the JSON Web Key Set" },
    asyncIterator := fun _ => keys }

/-- Static `code` getter of `JWKSMultipleMatchingKeys`. -/
def JWKSMultipleMatchingKeys.code : String := "ERR_JWKS_MULTIPLE_MATCHING_KEYS"

/-- Constructor of `JWKSTimeout`: its `message` field initializer
overwrites whatever message was passed to the constructor. -/
def JWKSTimeout.construct (messageOpt : Option String) : JoseErr :=
  let e := JOSEError.construct "JWKSTimeout" messageOpt
  { e with code := "ERR_JWKS_TIMEOUT", message := "request timed out" }

/-- Static `code` getter of `JWKSTimeout`. -/
def JWKSTimeout.code : String := "ERR_JWKS_TIMEOUT"

/-- Constructor of `JWSSignatureVerificationFailed`: its `message`
field initializer overwrites whatever message was passed to the
constructor. -/
def JWSSignatureVerificationFailed.construct (messageOpt : Option String) : JoseErr :=
  let e := JOSEError.construct "JWSSignatureVerificationFailed" messageOpt
  { e with code := "ERR_JWS_SIGNATURE_VERIFICATION_FAILED",
           message := "signature verification failed" }

/-- Static `code` getter of `JWSSignatureVerificationFailed`. -/
def JWSSignatureVerificationFailed.code : String := "ERR_JWS_SIGNATURE_VERIFICATION_FAILED"

/-!
Embedding of `getCryptoKey` from `runtime/get_sign_verify_key.ts`.
-/

/-- The error kinds `getCryptoKey` can throw; the source throws
`TypeError` (with a message built by the external `invalidKeyInput`
helper, not modelled) and propagates whatever `checkSigCryptoKey`
throws. -/
inductive JsError where
  | typeError
deriving DecidableEq

/-- The possible runtime values of the `key` argument, whose TypeScript
type is `unknown`: a `CryptoKey` (of abstract type `CK`), a
`Uint8Array`, or anything else. -/
inductive KeyInput (CK : Type) where
  | cryptoKey (k : CK)
  | uint8Array (bytes : Bytes)
  | other

/-- The argument record of the `crypto.subtle.importKey` call made by
`getCryptoKey`, capturing every argument the source passes. -/
structure HmacImportParams where
  format : String
  keyData : Bytes
  algName : String
  hashName : String
  extractable : Bool
  keyUsages : List String
deriving DecidableEq

/-- The successful outcomes of `getCryptoKey`: the `CryptoKey` passed
through unchanged, or the `importKey` call with its arguments. -/
inductive GetKeyResult (CK : Type) where
  | key (k : CK)
  | importKey (params : HmacImportParams)

/-- Embedding of `getCryptoKey`. The external `checkSigCryptoKey`
validator is a parameter; `crypto.subtle.importKey` is modelled by
recording the arguments of the call. -/
def getCryptoKey {CK : Type} (checkSigCryptoKey : CK → String → String → Except JsError Unit)
    (alg : String) (key : KeyInput CK) (usage : String) :
    Except JsError (GetKeyResult CK) :=
  match key with
  | .cryptoKey k =>
    match checkSigCryptoKey k alg usage with
    | .ok _ => .ok (.key k)
    | .error e => .error e
  | .uint8Array b =>
    if !jsStartsWith alg "HS" then
      .error .typeError
    else
      .ok (.importKey { format := "raw", keyData := b, algName := "HMAC",
                        hashName := "SHA-" ++ jsSubstrLast alg 3,
                        extractable := false, keyUsages := [usage] })
  | .other => .error .typeError

/-!
Concrete instances used to witness the conditional theorems below.
-/

/-- An injective byte-sequence-to-string encoder standing in for the
abstract base64url encoder in witnesses: each byte becomes the
character with that code point. -/
def idEncode (bs : Bytes) : String :=
  ⟨bs.map (fun b => Char.ofNat b.val)⟩

/-- The left inverse of `idEncode`. -/
def idDecode (s : String) : Bytes :=
  s.data.map (fun c => ⟨c.toNat % 256, Nat.mod_lt _ (by norm_num)⟩)

/-- A concrete instance of the AEAD collaborators: encryption returns
the plaintext as ciphertext and the IV as tag, decryption returns the
ciphertext, so the round-trip assumption holds definitionally. -/
def trivKw : AeadPrimitives Unit :=
  { encrypt := fun _ cek _ iv _ => { ciphertext := cek, tag := iv },
    decrypt := fun _ _ encryptedKey _ _ _ => some encryptedKey,
    generateIv := fun _ => [],
    base64url := idEncode }

/-- A second concrete instance, agreeing with `trivKw` except for the
IV generator. -/
def trivKw2 : AeadPrimitives Unit :=
  { trivKw with generateIv := fun _ => [7] }

/-- Each byte survives the round trip through `Char`. -/
theorem char_roundtrip : ∀ b : Byte, (Char.ofNat b.val).toNat = b.val := by
  decide

/-- `idDecode` is a left inverse of `idEncode`. -/
theorem idDecode_idEncode (bs : Bytes) : idDecode (idEncode bs) = bs := by
  have h : ((fun c : Char => (⟨c.toNat % 256, Nat.mod_lt _ (by norm_num)⟩ : Byte)) ∘
      fun b : Byte => Char.ofNat b.val) = id := by
    funext b
    simp only [Function.comp, id]
    ext
    simp [char_roundtrip b, Nat.mod_eq_of_lt b.isLt]
  simp [idDecode, idEncode, List.map_map, h]

/-- C1: for every algorithm identifier, wrapping key and CEK, `wrap`
uses the caller-supplied IV when one is given and otherwise the IV
generated for the truncated algorithm identifier, AEAD-encrypts the CEK
with empty AAD, and returns the ciphertext as the encrypted key
together with the base64url-encoded IV and tag. -/
theorem wrap_spec {K : Type} (P : AeadPrimitives K) (alg : String) (key : K)
    (cek iv : Bytes) :
    wrap P alg key cek (some iv) =
      { encryptedKey := (P.encrypt (jsSubstrFirst alg 7) cek key iv []).ciphertext,
        iv := P.base64url iv,
        tag := P.base64url (P.encrypt (jsSubstrFirst alg 7) cek key iv []).tag } ∧
    wrap P alg key cek none =
      { encryptedKey :=
          (P.encrypt (jsSubstrFirst alg 7) cek key
            (P.generateIv (jsSubstrFirst alg 7)) []).ciphertext,
        iv := P.base64url (P.generateIv (jsSubstrFirst alg 7)),
        tag := P.base64url
          (P.encrypt (jsSubstrFirst alg 7) cek key
            (P.generateIv (jsSubstrFirst alg 7)) []).tag } :=
  ⟨rfl, rfl⟩

/-- C2: assuming the AEAD decrypt primitive inverts the AEAD encrypt
primitive at matching algorithm, key, IV and AAD, and that `decode`
inverts the base64url encoder, `unwrap` applied to the encrypted key
produced by `wrap` together with the decoded IV and tag that `wrap`
returned recovers the original CEK. -/
theorem unwrap_wrap {K : Type} (P : AeadPrimitives K) (decode : String → Bytes)
    (hinv : ∀ alg cek key iv aad,
      P.decrypt alg key (P.encrypt alg cek key iv aad).ciphertext iv
        (P.encrypt alg cek key iv aad).tag aad = some cek)
    (hdecode : ∀ bs, decode (P.base64url bs) = bs)
    (alg : String) (key : K) (cek iv : Bytes) :
    unwrap P alg key (wrap P alg key cek (some iv)).encryptedKey
      (decode (wrap P alg key cek (some iv)).iv)
      (decode (wrap P alg key cek (some iv)).tag) = some cek := by
  simp only [wrap, unwrap, hdecode]
  exact hinv (jsSubstrFirst alg 7) cek key iv []

/-- Witness for C2 at concrete inputs. -/
theorem unwrap_wrap_witness :
    unwrap trivKw "A256GCMKW" () (wrap trivKw "A256GCMKW" () [18, 52] (some [0, 255])).encryptedKey
      (idDecode (wrap trivKw "A256GCMKW" () [18, 52] (some [0, 255])).iv)
      (idDecode (wrap trivKw "A256GCMKW" () [18, 52] (some [0, 255])).tag) = some [18, 52] :=
  unwrap_wrap trivKw idDecode (fun _ _ _ _ _ => rfl)
    (fun bs => idDecode_idEncode bs) "A256GCMKW" () [18, 52] [0, 255]

/-- C3: `wrap` and `unwrap` depend on the incoming algorithm identifier
only through its first 7 characters, and that truncation maps
A128GCMKW, A192GCMKW and A256GCMKW to the underlying AEAD identifiers
A128GCM, A192GCM and A256GCM. -/
theorem gcmkw_truncates {K : Type} (P : AeadPrimitives K) (alg alg2 : String)
    (h : jsSubstrFirst alg 7 = jsSubstrFirst alg2 7) :
    (∀ key cek ivOpt, wrap P alg key cek ivOpt = wrap P alg2 key cek ivOpt) ∧
    (∀ key encryptedKey iv tag,
      unwrap P alg key encryptedKey iv tag = unwrap P alg2 key encryptedKey iv tag) ∧
    jsSubstrFirst "A128GCMKW" 7 = "A128GCM" ∧
    jsSubstrFirst "A192GCMKW" 7 = "A192GCM" ∧
    jsSubstrFirst "A256GCMKW" 7 = "A256GCM" := by
  refine ⟨?_, ?_, by decide, by decide, by decide⟩
  · intro key cek ivOpt
    simp only [wrap, h]
  · intro key encryptedKey iv tag
    simp only [unwrap, h]

/-- Witness for C3 at concrete inputs: two identifiers sharing the
first 7 characters wrap identically. -/
theorem gcmkw_truncates_witness :
    wrap trivKw "A128GCMKW" () [1] (some [2]) = wrap trivKw "A128GCMXY" () [1] (some [2]) :=
  (gcmkw_truncates trivKw "A128GCMKW" "A128GCMXY" (by decide)).1 () [1] (some [2])

/-- C4: whatever message is supplied to the constructor, a constructed
`JWEDecryptionFailed` has message exactly the fixed generic string
concerning decryption, and a constructed
`JWSSignatureVerificationFailed` has message exactly the fixed generic
string concerning signature verification. -/
theorem uninformative_crypto_messages (m : String) :
    (JWEDecryptionFailed.construct (some m)).message = "decryption operation failed" ∧
    (JWSSignatureVerificationFailed.construct (some m)).message = "signature verification failed" :=
  ⟨rfl, rfl⟩

/-- C5: every constructed error instance carries the `code` of its
class, and the 16 class codes are pairwise distinct. -/
theorem error_codes_stable :
    (∀ m, (JOSEError.construct "JOSEError" m).code = JOSEError.code) ∧
    (∀ m c r, (JWTClaimValidationFailed.construct m c r).code = JWTClaimValidationFailed.code) ∧
    (∀ m c r, (JWTExpired.construct m c r).code = JWTExpired.code) ∧
    (∀ m, (JOSEAlgNotAllowed.construct m).code = JOSEAlgNotAllowed.code) ∧
    (∀ m, (JOSENotSupported.construct m).code = JOSENotSupported.code) ∧
    (∀ m, (JWEDecryptionFailed.construct m).code = JWEDecryptionFailed.code) ∧
    (∀ m, (JWEDecompressionFailed.construct m).code = JWEDecompressionFailed.code) ∧
    (∀ m, (JWEInvalid.construct m).code = JWEInvalid.code) ∧
    (∀ m, (JWSInvalid.construct m).code = JWSInvalid.code) ∧
    (∀ m, (JWTInvalid.construct m).code = JWTInvalid.code) ∧
    (∀ m, (JWKInvalid.construct m).code = JWKInvalid.code) ∧
    (∀ m, (JWKSInvalid.construct m).code = JWKSInvalid.code) ∧
    (∀ m, (JWKSNoMatchingKey.construct m).code = JWKSNoMatchingKey.code) ∧
    (∀ (K : Type) (m : Option String) (keys : List K),
      (JWKSMultipleMatchingKeys.construct K m keys).err.code = JWKSMultipleMatchingKeys.code) ∧
    (∀ m, (JWKSTimeout.construct m).code = JWKSTimeout.code) ∧
    (∀ m, (JWSSignatureVerificationFailed.construct m).code = JWSSignatureVerificationFailed.code) ∧
    [JOSEError.code, JWTClaimValidationFailed.code, JWTExpired.code, JOSEAlgNotAllowed.code,
      JOSENotSupported.code, JWEDecryptionFailed.code, JWEDecompressionFailed.code,
      JWEInvalid.code, JWSInvalid.code, JWTInvalid.code, JWKInvalid.code, JWKSInvalid.code,
      JWKSNoMatchingKey.code, JWKSMultipleMatchingKeys.code, JWKSTimeout.code,
      JWSSignatureVerificationFailed.code].Nodup :=
  ⟨fun _ => rfl, fun _ _ _ => rfl, fun _ _ _ => rfl, fun _ => rfl, fun _ => rfl, fun _ => rfl,
    fun _ => rfl, fun _ => rfl, fun _ => rfl, fun _ => rfl, fun _ => rfl, fun _ => rfl,
    fun _ => rfl, fun _ _ _ => rfl, fun _ => rfl, fun _ => rfl, by decide⟩

/-- C6: the policy-violation error and the not-supported error carry
the stated distinct codes. -/
theorem policy_vs_not_supported (m : Option String) :
    (JOSEAlgNotAllowed.construct m).code = "ERR_JOSE_ALG_NOT_ALLOWED" ∧
    (JOSENotSupported.construct m).code = "ERR_JOSE_NOT_SUPPORTED" ∧
    "ERR_JOSE_ALG_NOT_ALLOWED" ≠ "ERR_JOSE_NOT_SUPPORTED" :=
  ⟨rfl, rfl, by decide⟩

/-- C7: with a caller-supplied IV, `wrap` is a deterministic function
of the algorithm, key, CEK and IV: any two primitive instances that
agree on the encrypt primitive and the base64url encoder (the IV
generator, the only source of freshness, may differ) produce identical
results. -/
theorem wrap_deterministic {K : Type} (P Q : AeadPrimitives K)
    (henc : P.encrypt = Q.encrypt) (hb64 : P.base64url = Q.base64url)
    (alg : String) (key : K) (cek iv : Bytes) :
    wrap P alg key cek (some iv) = wrap Q alg key cek (some iv) := by
  simp only [wrap, henc, hb64]

/-- Witness for C7: `trivKw` and `trivKw2` differ in their IV
generator yet wrap identically at a fixed IV. -/
theorem wrap_deterministic_witness :
    wrap trivKw "A256GCMKW" () [18, 52] (some [0, 255]) =
      wrap trivKw2 "A256GCMKW" () [18, 52] (some [0, 255]) :=
  wrap_deterministic trivKw trivKw2 rfl rfl "A256GCMKW" () [18, 52] [0, 255]

/-- C8: the multiple-matching-keys error carries its own stable code,
distinct from the no-matching-key code, and the constructed error value
yields the candidate key sequence through its async iterator. -/
theorem multiple_matching_keys_distinguishable (K : Type) (m : Option String) (keys : List K) :
    (JWKSMultipleMatchingKeys.construct K m keys).err.code = "ERR_JWKS_MULTIPLE_MATCHING_KEYS" ∧
    (JWKSNoMatchingKey.construct m).code = "ERR_JWKS_NO_MATCHING_KEY" ∧
    ("ERR_JWKS_MULTIPLE_MATCHING_KEYS" : String) ≠ "ERR_JWKS_NO_MATCHING_KEY" ∧
    (JWKSMultipleMatchingKeys.construct K m keys).asyncIterator () = keys :=
  ⟨rfl, rfl, by decide, rfl⟩

/-- C9: `getCryptoKey` accepts `Uint8Array` key material exactly when
the algorithm identifier starts with HS, throwing `TypeError`
otherwise, and throws `TypeError` on every input that is neither a
`CryptoKey` nor a `Uint8Array`. -/
theorem getCryptoKey_closed_domain {CK : Type}
    (checkSigCryptoKey : CK → String → String → Except JsError Unit)
    (alg : String) (b : Bytes) (usage : String) :
    (getCryptoKey checkSigCryptoKey alg (.uint8Array b) usage =
      if jsStartsWith alg "HS" then
        Except.ok (.importKey { format := "raw", keyData := b, algName := "HMAC",
                                hashName := "SHA-" ++ jsSubstrLast alg 3,
                                extractable := false, keyUsages := [usage] })
      else Except.error .typeError) ∧
    getCryptoKey checkSigCryptoKey alg .other usage = Except.error .typeError := by
  refine ⟨?_, rfl⟩
  by_cases h : jsStartsWith alg "HS" <;> simp [getCryptoKey, h]

/-- C10: for each of HS256, HS384 and HS512, `getCryptoKey` on raw
bytes imports an HMAC key whose hash is SHA- followed by the last three
characters of the identifier, non-extractable, restricted to exactly
the single requested usage. -/
theorem getCryptoKey_hmac_import {CK : Type}
    (checkSigCryptoKey : CK → String → String → Except JsError Unit)
    (b : Bytes) (usage : String) :
    getCryptoKey checkSigCryptoKey "HS256" (.uint8Array b) usage =
      Except.ok (.importKey { format := "raw", keyData := b, algName := "HMAC",
                              hashName := "SHA-256", extractable := false,
                              keyUsages := [usage] }) ∧
    getCryptoKey checkSigCryptoKey "HS384" (.uint8Array b) usage =
      Except.ok (.importKey { format := "raw", keyData := b, algName := "HMAC",
                              hashName := "SHA-384", extractable := false,
                              keyUsages := [usage] }) ∧
    getCryptoKey checkSigCryptoKey "HS512" (.uint8Array b) usage =
      Except.ok (.importKey { format := "raw", keyData := b, algName := "HMAC",
                              hashName := "SHA-512", extractable := false,
                              keyUsages := [usage] }) :=
  ⟨rfl, rfl, rfl⟩

end Jose
